import Mathlib

/-!
Verification of the PyGEM MCMC calibration engine (`src/run_calibration.py`,
`option_calibration == 2`).  Python floats are modelled as elements of a
linear ordered field (instantiated at `ℝ` for the analytic statements and at
`ℚ` for the executable embedding), the fixed 8-slot `modelparameters` list as
a structure with one field per slot, numpy arrays as lists, and the external
pymc sampler / mass-balance forward model as oracle functions supplied to the
embedded drivers.
-/

namespace PyGEM

/-- Scalar precipitation-factor transformation, as applied inline in the
`massbal` deterministic (run_calibration.py lines 366-369):
`x + 1` when `x >= 0`, else `1 / (1 - x)`. -/
def prec_transform {α : Type} [LinearOrderedField α] (x : α) : α :=
  if 0 ≤ x then x + 1 else 1 / (1 - x)

/-- Array version `prec_transformation` (run_calibration.py lines 224-228).
The function copies its argument (`precfactor = precfactor_raw.copy()`),
applies the two masked in-place updates to the copy, and returns
`(return value, value of the caller's array after the call)`.  The first
masked assignment adds 1 to every entry `>= 0`; the second replaces every
entry of the updated array that is `< 0` by `1 / (1 - entry)`. -/
def prec_transformation (precfactor_raw : List ℚ) : List ℚ × List ℚ :=
  let precfactor := precfactor_raw
  let precfactor := precfactor.map (fun v => if 0 ≤ v then v + 1 else v)
  let precfactor := precfactor.map (fun v => if v < 0 then 1 / (1 - v) else v)
  (precfactor, precfactor_raw)

/-- The 8-slot `modelparameters` list
`[lrgcm, lrglac, precfactor, precgrad, ddfsnow, ddfice, tempsnow, tempchange]`
(run_calibration.py lines 708-710), one field per slot. -/
structure ModelParams where
  lrgcm : ℚ
  lrglac : ℚ
  precfactor : ℚ
  precgrad : ℚ
  ddfsnow : ℚ
  ddfice : ℚ
  tempsnow : ℚ
  tempchange : ℚ
deriving Repr, DecidableEq

/-- Parameter substitution performed by the `massbal` deterministic on the
copied parameter list (run_calibration.py lines 356-369): slots 2, 4, 7 are
overwritten by the candidate values when those are not `None`, then the
precipitation-factor slot is transformed in place. -/
def massbal_params (modelparameters : ModelParams)
    (precfactor ddfsnow tempchange : Option ℚ) : ModelParams :=
  let c1 := match precfactor with
    | some v => { modelparameters with precfactor := v }
    | none => modelparameters
  let c2 := match ddfsnow with
    | some v => { c1 with ddfsnow := v }
    | none => c1
  let c3 := match tempchange with
    | some v => { c2 with tempchange := v }
    | none => c2
  if 0 ≤ c3.precfactor then { c3 with precfactor := c3.precfactor + 1 }
  else { c3 with precfactor := 1 / (1 - c3.precfactor) }

/-- Time-windowed modeled mass balance computed by `massbal`
(run_calibration.py line 381): `glac_wide_massbaltotal[t1_idx:t2_idx].sum()
/ (t2 - t1)`, with the Python slice written as drop-then-take. -/
def massbal_value (glac_wide_massbaltotal : List ℚ) (t1_idx t2_idx : ℕ)
    (t1 t2 : ℚ) : ℚ :=
  ((glac_wide_massbaltotal.drop t1_idx).take (t2_idx - t1_idx)).sum / (t2 - t1)

/-- The whole `massbal` deterministic (run_calibration.py lines 354-381):
substitutes candidate values on a copy of `modelparameters`, runs the
forward model (an oracle `runmassbalance` returning the glacier-wide
mass-balance series) on the copy, and returns the windowed mean together
with the caller's parameter list after the call. -/
def massbal_run (modelparameters : ModelParams)
    (precfactor ddfsnow tempchange : Option ℚ)
    (runmassbalance : ModelParams → List ℚ)
    (t1_idx t2_idx : ℕ) (t1 t2 : ℚ) : ℚ × ModelParams :=
  (massbal_value (runmassbalance (massbal_params modelparameters precfactor ddfsnow tempchange))
    t1_idx t2_idx t1 t2, modelparameters)

/-- Observed mean mass balance used in the likelihood
(run_calibration.py line 733): `mb_mwe / (t2 - t1)`. -/
def observed_massbal_of (mb_mwe t1 t2 : ℚ) : ℚ := mb_mwe / (t2 - t1)

/- ===== module-level distribution constants (run_calibration.py lines 42-55) ===== -/

def mcmc_distribution_type : String := "truncnormal"

def mcmc_distribution_type_2 : String := "uniform"

def precfactor_mu : ℚ := 0

def precfactor_sigma : ℚ := 1

def precfactor_boundlow : ℚ := -2

def precfactor_boundhigh : ℚ := 2

def tempchange_mu : ℚ := 0

def tempchange_sigma : ℚ := 4

def tempchange_boundlow : ℚ := -10

def tempchange_boundhigh : ℚ := 10

def ddfsnow_mu : ℚ := 0.0041

def ddfsnow_sigma : ℚ := 0.0015

def ddfsnow_boundlow : ℚ := ddfsnow_mu - 1.96 * ddfsnow_sigma

def ddfsnow_boundhigh : ℚ := ddfsnow_mu + 1.96 * ddfsnow_sigma

/-- A completed sampler run's traces, one ordered sequence per variable
(`model.trace(vn)[:]`, run_calibration.py lines 746-750). -/
structure Trace where
  tempchange : List ℚ
  precfactor : List ℚ
  ddfsnow : List ℚ
  massbal : List ℚ

/-- The prior-distribution arguments of one `run_MCMC` call
(run_calibration.py lines 230-239).  Iteration counts, burn-in and step
method are identical in both calls of the driver loop and are treated in
the tallying model (`runTally`). -/
structure MCMCInput where
  distribution_type : String
  precfactor_mu : ℚ
  precfactor_sigma : ℚ
  precfactor_boundlow : ℚ
  precfactor_boundhigh : ℚ
  tempchange_mu : ℚ
  tempchange_sigma : ℚ
  tempchange_boundlow : ℚ
  tempchange_boundhigh : ℚ
  ddfsnow_mu : ℚ
  ddfsnow_sigma : ℚ
  ddfsnow_boundlow : ℚ
  ddfsnow_boundhigh : ℚ

/-- `np.mean` of a trace column. -/
def mean (xs : List ℚ) : ℚ := xs.sum / (xs.length : ℚ)

/-- Arguments of the first `run_MCMC` call (run_calibration.py lines
741-743): module defaults with the primary distribution type. -/
def firstInput : MCMCInput :=
  { distribution_type := mcmc_distribution_type
    precfactor_mu := precfactor_mu
    precfactor_sigma := precfactor_sigma
    precfactor_boundlow := precfactor_boundlow
    precfactor_boundhigh := precfactor_boundhigh
    tempchange_mu := tempchange_mu
    tempchange_sigma := tempchange_sigma
    tempchange_boundlow := tempchange_boundlow
    tempchange_boundhigh := tempchange_boundhigh
    ddfsnow_mu := ddfsnow_mu
    ddfsnow_sigma := ddfsnow_sigma
    ddfsnow_boundlow := ddfsnow_boundlow
    ddfsnow_boundhigh := ddfsnow_boundhigh }

/-- Prior adjustment for the retry (run_calibration.py lines 757-781):
switch to the secondary distribution type, re-center the precipitation
factor and temperature change at the posterior means of the failed run, and
shift the bounds according to the sign of `mean(massbal) - observed`. -/
def adjustPriors (observed_massbal : ℚ) (model1 : Trace) : MCMCInput :=
  let precfactor_mu_shifted := mean model1.precfactor
  let tempchange_mu_shifted := mean model1.tempchange
  if mean model1.massbal - observed_massbal > 0 then
    { firstInput with
      distribution_type := mcmc_distribution_type_2
      precfactor_mu := precfactor_mu_shifted
      precfactor_boundlow := precfactor_boundlow
      precfactor_boundhigh := 0
      tempchange_mu := tempchange_mu_shifted
      tempchange_boundlow := 0
      tempchange_boundhigh := tempchange_boundhigh }
  else
    { firstInput with
      distribution_type := mcmc_distribution_type_2
      precfactor_mu := precfactor_mu_shifted
      precfactor_boundlow := 0
      precfactor_boundhigh := precfactor_boundhigh
      tempchange_mu := tempchange_mu_shifted
      tempchange_boundlow := tempchange_boundlow
      tempchange_boundhigh := 0 }

/-- The per-glacier driver loop body (run_calibration.py lines 739-796)
with the sampler `run_MCMC` as an oracle: run once with the default priors;
if the posterior mean mass balance is off the observation by more than the
tolerance 0.1 m w.e./yr, adjust the priors and run exactly once more.  The
returned list records each sampler run with the input it was given. -/
def calibrateGlacier (run_MCMC : MCMCInput → Trace) (observed_massbal : ℚ) :
    List (MCMCInput × Trace) :=
  let model := run_MCMC firstInput
  if |mean model.massbal - observed_massbal| > 0.1 then
    let input2 := adjustPriors observed_massbal model
    [(firstInput, model), (input2, run_MCMC input2)]
  else
    [(firstInput, model)]

/-- A concrete constant sampler oracle, used to exercise the driver on an
input whose first-run posterior mean (1.0) differs from the observation (0)
by more than the tolerance. -/
def constRun : MCMCInput → Trace := fun _ => ⟨[0], [0], [0], [1]⟩

/-- Modelled from the spec: the sample tallying of the pymc sampling loop
invoked by `model.sample(iter=iterations, burn=burn, thin=thin, ...)`
(run_calibration.py lines 399-401).  The pymc library is not part of this
repository, so the set of retained iterations is taken from the spec's
words: variables are not tallied until `burn` iterations are complete, and
thereafter every `thin`-th sample is retained. -/
def runTally (iterations burn thin : ℕ) : List ℕ :=
  (List.range iterations).filter
    (fun i => decide (burn ≤ i) && decide ((i + 1 - burn) % thin = 0))

/-- Trace of one sampler variable: the chain's per-iteration values at the
retained iterations. -/
def mcmc_trace (iterations burn thin : ℕ) (chain : ℕ → ℚ) : List ℚ :=
  (runTally iterations burn thin).map chain

/-- The per-glacier orchestration loop of `main` (run_calibration.py lines
700-839) with Python exceptions modelled by `Except`: glaciers are
calibrated in order and each result is persisted (`ds.to_netcdf`) before
the next glacier starts; the loop body contains no exception handler, so an
error raised for one glacier propagates and aborts the rest of the worker's
batch.  Returns the (glacier, result) pairs persisted before any abort,
and the propagated error if one occurred. -/
def runBatch {G R E : Type} (f : G → Except E R) : List G → List (G × R) × Option E
  | [] => ([], none)
  | g :: gs =>
    match f g with
    | Except.ok r =>
      let rest := runBatch f gs
      ((g, r) :: rest.1, rest.2)
    | Except.error e => ([], some e)

/-- A concrete per-glacier calibration oracle in which glacier 0 raises and
every other glacier succeeds. -/
def oneFailing : ℕ → Except ℕ ℕ :=
  fun g => if g = 0 then Except.error 7 else Except.ok g

/-- Python runtime errors that the prior-construction code can raise. -/
inductive PyError where
  | zeroDivision : PyError
  | nameError : PyError
deriving DecidableEq

/-- Distribution objects built for the three parameters (pymc constructor
arguments as computed in run_calibration.py lines 327-351). -/
inductive PriorDist where
  | truncatedNormal (mu tau a b : ℚ) : PriorDist
  | uniformDist (lower upper : ℚ) : PriorDist
deriving DecidableEq

/-- Python division: raises `ZeroDivisionError` on a zero denominator. -/
def pyDiv (a b : ℚ) : Except PyError ℚ :=
  if b = 0 then Except.error PyError.zeroDivision else Except.ok (a / b)

/-- Prior-distribution construction in `run_MCMC` (run_calibration.py lines
320-351): for `truncnormal`, bounds are standardized to z-scores
`a = (lo - mu) / sigma`, `b = (hi - mu) / sigma` and the precision is
`tau = 1 / sigma**2`; for `uniform` the bounds are passed through directly.
No validation of the inputs is performed anywhere in this code.  When
`distribution_type` is neither string, `precfactor` is never assigned and
its first later use raises `NameError`. -/
def assignPriors (distribution_type : String)
    (precfactor_mu precfactor_sigma precfactor_boundlow precfactor_boundhigh
     tempchange_mu tempchange_sigma tempchange_boundlow tempchange_boundhigh
     ddfsnow_mu ddfsnow_sigma ddfsnow_boundlow ddfsnow_boundhigh : ℚ) :
    Except PyError (PriorDist × PriorDist × PriorDist) :=
  if distribution_type = "truncnormal" then do
    let precfactor_a ← pyDiv (precfactor_boundlow - precfactor_mu) precfactor_sigma
    let precfactor_b ← pyDiv (precfactor_boundhigh - precfactor_mu) precfactor_sigma
    let precfactor_tau ← pyDiv 1 (precfactor_sigma ^ 2)
    let tempchange_a ← pyDiv (tempchange_boundlow - tempchange_mu) tempchange_sigma
    let tempchange_b ← pyDiv (tempchange_boundhigh - tempchange_mu) tempchange_sigma
    let tempchange_tau ← pyDiv 1 (tempchange_sigma ^ 2)
    let ddfsnow_a ← pyDiv (ddfsnow_boundlow - ddfsnow_mu) ddfsnow_sigma
    let ddfsnow_b ← pyDiv (ddfsnow_boundhigh - ddfsnow_mu) ddfsnow_sigma
    let ddfsnow_tau ← pyDiv 1 (ddfsnow_sigma ^ 2)
    pure (PriorDist.truncatedNormal precfactor_mu precfactor_tau precfactor_a precfactor_b,
          PriorDist.truncatedNormal tempchange_mu tempchange_tau tempchange_a tempchange_b,
          PriorDist.truncatedNormal ddfsnow_mu ddfsnow_tau ddfsnow_a ddfsnow_b)
  else if distribution_type = "uniform" then
    pure (PriorDist.uniformDist precfactor_boundlow precfactor_boundhigh,
          PriorDist.uniformDist tempchange_boundlow tempchange_boundhigh,
          PriorDist.uniformDist ddfsnow_boundlow ddfsnow_boundhigh)
  else Except.error PyError.nameError

/-- One row of the dataframe returned by `es.stratified_sample`
(run_calibration.py lines 806-807): the four sampled variables plus the
`sorted_index` bookkeeping column that `process_df` drops. -/
structure SampleRow where
  tempchange : ℚ
  precfactor : ℚ
  ddfsnow : ℚ
  massbal : ℚ
  sorted_index : ℚ
deriving DecidableEq

/-- The static configuration values copied into every ensemble member
(run_calibration.py lines 685-689). -/
structure StaticConfig where
  lrgcm : ℚ
  lrglac : ℚ
  precgrad : ℚ
  ddfice : ℚ
  tempsnow : ℚ
deriving DecidableEq

/-- One processed ensemble row: the four calibrated/model variables plus
the five uncalibrated static parameters; `sorted_index` is gone. -/
structure OutputRow where
  tempchange : ℚ
  precfactor : ℚ
  ddfsnow : ℚ
  massbal : ℚ
  lrgcm : ℚ
  lrglac : ℚ
  precgrad : ℚ
  ddfice : ℚ
  tempsnow : ℚ
deriving DecidableEq

/-- The processed dataframe: named row index, named column axis, and the
rows keyed by their run index. -/
structure ProcessedDF where
  indexName : String
  columnsName : String
  rows : List (ℕ × OutputRow)

/-- `process_df` (run_calibration.py lines 666-697): adds the five static
columns, drops `sorted_index`, names the column axis `variables`, and
re-indexes the rows by `runs = np.arange(len(df))`. -/
def process_df (cfg : StaticConfig) (df : List SampleRow) : ProcessedDF :=
  { indexName := "runs"
    columnsName := "variables"
    rows := (df.map (fun r =>
      ({ tempchange := r.tempchange
         precfactor := r.precfactor
         ddfsnow := r.ddfsnow
         massbal := r.massbal
         lrgcm := cfg.lrgcm
         lrglac := cfg.lrglac
         precgrad := cfg.precgrad
         ddfice := cfg.ddfice
         tempsnow := cfg.tempsnow } : OutputRow))).enum }

/- ===== helper lemmas for the precipitation transform ===== -/

theorem prec_transform_pos {α : Type} [LinearOrderedField α] (x : α) :
    0 < prec_transform x := by
  unfold prec_transform
  split_ifs with h
  · linarith
  · exact one_div_pos.mpr (by linarith)

theorem prec_transform_nonneg_eq {α : Type} [LinearOrderedField α] {x : α} (h : 0 ≤ x) :
    prec_transform x = x + 1 := by
  simp [prec_transform, h]

theorem prec_transform_neg_eq {α : Type} [LinearOrderedField α] {x : α} (h : x < 0) :
    prec_transform x = 1 / (1 - x) := by
  simp [prec_transform, not_le.mpr h]

theorem prec_transform_strictMono {α : Type} [LinearOrderedField α] :
    StrictMono (prec_transform (α := α)) := by
  intro x y hxy
  rcases le_or_lt 0 x with hx | hx
  · rw [prec_transform_nonneg_eq hx, prec_transform_nonneg_eq (le_of_lt (lt_of_le_of_lt hx hxy))]
    linarith
  · rcases le_or_lt 0 y with hy | hy
    · rw [prec_transform_neg_eq hx, prec_transform_nonneg_eq hy]
      have h1 : (1 : α) < 1 - x := by linarith
      have h2 : 1 / (1 - x) < 1 := by
        rw [div_lt_one (by linarith)]
        exact h1
      linarith
    · rw [prec_transform_neg_eq hx, prec_transform_neg_eq hy]
      have hyp : (0 : α) < 1 - y := by linarith
      have hxp : (0 : α) < 1 - x := by linarith
      rw [div_lt_div_iff₀ hxp hyp]
      linarith

theorem prec_transform_tendsto_left :
    Filter.Tendsto (prec_transform (α := ℝ)) (nhdsWithin 0 (Set.Iio 0)) (nhds 1) := by
  have hc : ContinuousAt (fun x : ℝ => 1 / (1 - x)) 0 := by
    apply ContinuousAt.div continuousAt_const
    · exact (continuous_const.sub continuous_id).continuousAt
    · norm_num
  have h1 : Filter.Tendsto (fun x : ℝ => 1 / (1 - x)) (nhdsWithin 0 (Set.Iio 0))
      (nhds ((fun x : ℝ => 1 / (1 - x)) 0)) :=
    hc.tendsto.mono_left nhdsWithin_le_nhds
  have he : ((fun x : ℝ => 1 / (1 - x)) 0) = 1 := by norm_num
  rw [he] at h1
  refine h1.congr' ?_
  filter_upwards [self_mem_nhdsWithin] with x hx
  exact (prec_transform_neg_eq hx).symm

theorem prec_transform_tendsto_right :
    Filter.Tendsto (prec_transform (α := ℝ)) (nhdsWithin 0 (Set.Ioi 0)) (nhds 1) := by
  have hc : ContinuousAt (fun x : ℝ => x + 1) 0 :=
    (continuous_id.add continuous_const).continuousAt
  have h1 : Filter.Tendsto (fun x : ℝ => x + 1) (nhdsWithin 0 (Set.Ioi 0))
      (nhds ((fun x : ℝ => x + 1) 0)) :=
    hc.tendsto.mono_left nhdsWithin_le_nhds
  have he : ((fun x : ℝ => x + 1) 0) = 1 := by norm_num
  rw [he] at h1
  refine h1.congr' ?_
  filter_upwards [self_mem_nhdsWithin] with x hx
  exact (prec_transform_nonneg_eq (le_of_lt hx)).symm

theorem prec_transform_continuousAt : ContinuousAt (prec_transform (α := ℝ)) 0 := by
  have h0 : prec_transform (0 : ℝ) = 1 := by norm_num [prec_transform]
  unfold ContinuousAt
  rw [h0, ← nhds_left'_sup_nhds_right (0 : ℝ), Filter.tendsto_sup]
  constructor
  · exact prec_transform_tendsto_left
  · have hc : ContinuousAt (fun x : ℝ => x + 1) 0 :=
      (continuous_id.add continuous_const).continuousAt
    have h1 : Filter.Tendsto (fun x : ℝ => x + 1) (nhdsWithin 0 (Set.Ici 0))
        (nhds ((fun x : ℝ => x + 1) 0)) :=
      hc.tendsto.mono_left nhdsWithin_le_nhds
    have he : ((fun x : ℝ => x + 1) 0) = 1 := by norm_num
    rw [he] at h1
    refine h1.congr' ?_
    filter_upwards [self_mem_nhdsWithin] with x hx
    exact (prec_transform_nonneg_eq hx).symm

theorem prec_transformation_eq_map (xs : List ℚ) :
    (prec_transformation xs).1 = xs.map prec_transform := by
  unfold prec_transformation
  simp only [List.map_map]
  apply List.map_congr_left
  intro v _
  by_cases hv : 0 ≤ v
  · have h1 : ¬ (v + 1 < 0) := by push_neg; linarith
    simp [Function.comp, hv, h1, prec_transform]
  · have hv' : v < 0 := not_le.mp hv
    simp [Function.comp, hv, hv', prec_transform]

theorem massbal_params_precfactor (mp : ModelParams) (x : ℚ)
    (dd tc : Option ℚ) :
    (massbal_params mp (some x) dd tc).precfactor = prec_transform x := by
  cases dd <;> cases tc <;>
    by_cases h : 0 ≤ x <;>
    simp [massbal_params, prec_transform, h]

/-- C1: for every raw sampled value the precipitation-factor transformation
is strictly positive, equals `x+1` for `x ≥ 0` and `1/(1-x)` for `x < 0`, is
strictly increasing and continuous across `x = 0` with both one-sided limits
there equal to 1; this holds for the array version `prec_transformation`
(which agrees elementwise with the scalar transform) and for the scalar
transform applied to the precipitation-factor slot inside the `massbal`
deterministic before the forward-model call. -/
theorem C1_prec_transform_correct :
    (∀ x : ℝ, 0 < prec_transform x)
    ∧ (∀ x : ℝ, 0 ≤ x → prec_transform x = x + 1)
    ∧ (∀ x : ℝ, x < 0 → prec_transform x = 1 / (1 - x))
    ∧ StrictMono (prec_transform (α := ℝ))
    ∧ ContinuousAt (prec_transform (α := ℝ)) 0
    ∧ Filter.Tendsto (prec_transform (α := ℝ)) (nhdsWithin 0 (Set.Iio 0)) (nhds 1)
    ∧ Filter.Tendsto (prec_transform (α := ℝ)) (nhdsWithin 0 (Set.Ioi 0)) (nhds 1)
    ∧ (∀ xs : List ℚ, (prec_transformation xs).1 = xs.map prec_transform)
    ∧ (∀ (mp : ModelParams) (x : ℚ) (dd tc : Option ℚ),
        (massbal_params mp (some x) dd tc).precfactor = prec_transform x
        ∧ 0 < (massbal_params mp (some x) dd tc).precfactor) :=
  ⟨prec_transform_pos,
   fun _ h => prec_transform_nonneg_eq h,
   fun _ h => prec_transform_neg_eq h,
   prec_transform_strictMono,
   prec_transform_continuousAt,
   prec_transform_tendsto_left,
   prec_transform_tendsto_right,
   prec_transformation_eq_map,
   fun mp x dd tc =>
     ⟨massbal_params_precfactor mp x dd tc,
      massbal_params_precfactor mp x dd tc ▸ prec_transform_pos x⟩⟩

/-- C2: the second sampler run occurs exactly when the absolute difference
between the first run's posterior mean mass balance and the observed mean
exceeds the tolerance 0.1 m w.e./yr; within tolerance the round count is 1,
and the sampler is never run more than twice. -/
theorem C2_single_retry (run_MCMC : MCMCInput → Trace) (observed_massbal : ℚ) :
    ((calibrateGlacier run_MCMC observed_massbal).length = 2 ↔
      |mean (run_MCMC firstInput).massbal - observed_massbal| > 0.1)
    ∧ (|mean (run_MCMC firstInput).massbal - observed_massbal| ≤ 0.1 →
      (calibrateGlacier run_MCMC observed_massbal).length = 1)
    ∧ (calibrateGlacier run_MCMC observed_massbal).length ≤ 2 := by
  by_cases h : |mean (run_MCMC firstInput).massbal - observed_massbal| > 0.1
  · refine ⟨⟨fun _ => h, fun _ => ?_⟩, fun hle => absurd h (not_lt.mpr hle), ?_⟩
    · simp [calibrateGlacier, h]
    · simp [calibrateGlacier, h]
  · refine ⟨⟨fun h2 => ?_, fun hgt => absurd hgt h⟩, fun _ => ?_, ?_⟩
    · simp [calibrateGlacier, h] at h2
    · simp [calibrateGlacier, h]
    · simp [calibrateGlacier, h]

/-- C3: when a retry is triggered (|Δ| > 0.1 with
Δ = mean(trace[massbal]) − observed), the retry's priors re-center the
precipitation-factor and temperature-bias means at the failed run's
posterior means, switch the distribution kind to the configured secondary
kind (uniform), and shift the bounds by the sign of Δ: for Δ > 0 the
precipitation-factor upper bound and temperature-bias lower bound become 0;
for Δ < 0 the mirrored assignment holds. -/
theorem C3_retry_priors (run_MCMC : MCMCInput → Trace) (observed_massbal : ℚ)
    (h : |mean (run_MCMC firstInput).massbal - observed_massbal| > 0.1) :
    ((calibrateGlacier run_MCMC observed_massbal).map Prod.fst =
      [firstInput, adjustPriors observed_massbal (run_MCMC firstInput)])
    ∧ (adjustPriors observed_massbal (run_MCMC firstInput)).precfactor_mu =
        mean (run_MCMC firstInput).precfactor
    ∧ (adjustPriors observed_massbal (run_MCMC firstInput)).tempchange_mu =
        mean (run_MCMC firstInput).tempchange
    ∧ (adjustPriors observed_massbal (run_MCMC firstInput)).distribution_type =
        mcmc_distribution_type_2
    ∧ (mean (run_MCMC firstInput).massbal - observed_massbal > 0 →
        (adjustPriors observed_massbal (run_MCMC firstInput)).precfactor_boundhigh = 0
        ∧ (adjustPriors observed_massbal (run_MCMC firstInput)).tempchange_boundlow = 0
        ∧ (adjustPriors observed_massbal (run_MCMC firstInput)).precfactor_boundlow =
            precfactor_boundlow
        ∧ (adjustPriors observed_massbal (run_MCMC firstInput)).tempchange_boundhigh =
            tempchange_boundhigh)
    ∧ (mean (run_MCMC firstInput).massbal - observed_massbal < 0 →
        (adjustPriors observed_massbal (run_MCMC firstInput)).precfactor_boundlow = 0
        ∧ (adjustPriors observed_massbal (run_MCMC firstInput)).tempchange_boundhigh = 0
        ∧ (adjustPriors observed_massbal (run_MCMC firstInput)).precfactor_boundhigh =
            precfactor_boundhigh
        ∧ (adjustPriors observed_massbal (run_MCMC firstInput)).tempchange_boundlow =
            tempchange_boundlow) := by
  refine ⟨by simp [calibrateGlacier, h], ?_, ?_, ?_, ?_, ?_⟩ <;>
    by_cases hd : mean (run_MCMC firstInput).massbal - observed_massbal > 0 <;>
    simp [adjustPriors, hd] <;>
    intro hlt <;> linarith

/-- Witness for C3 at a concrete input: a constant sampler whose posterior
mean mass balance is 1 and an observed mean of 0, so Δ = 1 > 0.1. -/
theorem C3_retry_priors_witness :
    ((calibrateGlacier constRun 0).map Prod.fst =
      [firstInput, adjustPriors 0 (constRun firstInput)])
    ∧ (adjustPriors 0 (constRun firstInput)).precfactor_mu =
        mean (constRun firstInput).precfactor
    ∧ (adjustPriors 0 (constRun firstInput)).tempchange_mu =
        mean (constRun firstInput).tempchange
    ∧ (adjustPriors 0 (constRun firstInput)).distribution_type =
        mcmc_distribution_type_2
    ∧ (mean (constRun firstInput).massbal - 0 > 0 →
        (adjustPriors 0 (constRun firstInput)).precfactor_boundhigh = 0
        ∧ (adjustPriors 0 (constRun firstInput)).tempchange_boundlow = 0
        ∧ (adjustPriors 0 (constRun firstInput)).precfactor_boundlow =
            precfactor_boundlow
        ∧ (adjustPriors 0 (constRun firstInput)).tempchange_boundhigh =
            tempchange_boundhigh)
    ∧ (mean (constRun firstInput).massbal - 0 < 0 →
        (adjustPriors 0 (constRun firstInput)).precfactor_boundlow = 0
        ∧ (adjustPriors 0 (constRun firstInput)).tempchange_boundhigh = 0
        ∧ (adjustPriors 0 (constRun firstInput)).precfactor_boundhigh =
            precfactor_boundhigh
        ∧ (adjustPriors 0 (constRun firstInput)).tempchange_boundlow =
            tempchange_boundlow) :=
  C3_retry_priors constRun 0 (by norm_num [constRun, mean])

theorem runTally_length (burn thin : ℕ) :
    ∀ iterations, (runTally iterations burn thin).length = (iterations - burn) / thin := by
  intro iterations
  induction iterations with
  | zero => simp [runTally]
  | succ n ih =>
    have hsplit : runTally (n + 1) burn thin
        = runTally n burn thin ++
          List.filter (fun i => decide (burn ≤ i) && decide ((i + 1 - burn) % thin = 0)) [n] := by
      unfold runTally
      rw [List.range_succ, List.filter_append]
    rw [hsplit, List.length_append, ih]
    have hshift : n + 1 - burn = n - burn + 1 ∨ (n - burn = 0 ∧ n + 1 - burn = 0) := by omega
    by_cases hb : burn ≤ n
    · have he : n + 1 - burn = n - burn + 1 := by omega
      by_cases hm : (n + 1 - burn) % thin = 0
      · have hd : thin ∣ n - burn + 1 := by
          apply Nat.dvd_of_mod_eq_zero
          rwa [he] at hm
        rw [he, Nat.succ_div, if_pos hd]
        simp [hb, hm]
      · have hd : ¬ thin ∣ n - burn + 1 := by
          intro hdvd
          apply hm
          rw [he]
          exact Nat.mod_eq_zero_of_dvd hdvd
        rw [he, Nat.succ_div, if_neg hd]
        simp [hm]
    · have h1 : n - burn = 0 := by omega
      have h2 : n + 1 - burn = 0 := by omega
      simp [hb, h1, h2]

/-- C4: for a completed sampler run with `iterations`, `burn` and `thin`,
each of the four variables' traces has length exactly
`(iterations - burn) / thin` (floor division), so all four trace sequences
have identical length. -/
theorem C4_trace_length (iterations burn thin : ℕ)
    (chain_massbal chain_precfactor chain_tempchange chain_ddfsnow : ℕ → ℚ) :
    (mcmc_trace iterations burn thin chain_massbal).length = (iterations - burn) / thin
    ∧ (mcmc_trace iterations burn thin chain_precfactor).length = (iterations - burn) / thin
    ∧ (mcmc_trace iterations burn thin chain_tempchange).length = (iterations - burn) / thin
    ∧ (mcmc_trace iterations burn thin chain_ddfsnow).length = (iterations - burn) / thin := by
  refine ⟨?_, ?_, ?_, ?_⟩ <;> simp [mcmc_trace, runTally_length]

theorem sum_take_getD (l : List ℚ) :
    ∀ n : ℕ, (l.take n).sum = ∑ i ∈ Finset.range n, l.getD i 0 := by
  induction l with
  | nil => intro n; simp
  | cons x xs ih =>
    intro n
    cases n with
    | zero => simp
    | succ m =>
      rw [List.take_succ_cons, List.sum_cons, ih m, Finset.sum_range_succ']
      simp [add_comm]

theorem getD_drop_add (l : List ℚ) :
    ∀ a i : ℕ, (l.drop a).getD i 0 = l.getD (a + i) 0 := by
  induction l with
  | nil => intro a i; simp
  | cons x xs ih =>
    intro a i
    cases a with
    | zero => simp
    | succ b =>
      rw [List.drop_succ_cons, ih b i]
      have he : b + 1 + i = (b + i) + 1 := by omega
      rw [he, List.getD_cons_succ]

theorem massbal_value_eq_window (series : List ℚ) (t1_idx t2_idx : ℕ) (t1 t2 : ℚ) :
    massbal_value series t1_idx t2_idx t1 t2
      = (∑ i ∈ Finset.Ico t1_idx t2_idx, series.getD i 0) / (t2 - t1) := by
  unfold massbal_value
  rw [Finset.sum_Ico_eq_sum_range, sum_take_getD]
  congr 1
  exact Finset.sum_congr rfl fun i _ => getD_drop_add series t1_idx i

/-- C5: the modeled value returned by the `massbal` deterministic equals the
sum of the forward model's per-step glacier-wide mass-balance series over
the half-open index window [t1_idx, t2_idx) divided by the window length in
years, and the observed mean used in the likelihood is `mb_mwe / (t2 - t1)`. -/
theorem C5_windowed_mean (mp : ModelParams) (pf dd tc : Option ℚ)
    (runmassbalance : ModelParams → List ℚ) (t1_idx t2_idx : ℕ) (t1 t2 mb_mwe : ℚ) :
    (massbal_run mp pf dd tc runmassbalance t1_idx t2_idx t1 t2).1
      = (∑ i ∈ Finset.Ico t1_idx t2_idx,
          (runmassbalance (massbal_params mp pf dd tc)).getD i 0) / (t2 - t1)
    ∧ observed_massbal_of mb_mwe t1 t2 = mb_mwe / (t2 - t1) :=
  ⟨massbal_value_eq_window (runmassbalance (massbal_params mp pf dd tc)) t1_idx t2_idx t1 t2,
   rfl⟩

/-- Counterexample to C6: in a batch of two glaciers where glacier 0 fails
and glacier 1 would succeed on its own, the result set is empty — glacier 1
does not produce a result, because the orchestration loop has no exception
handler and the error aborts the batch. -/
theorem C6_counterexample :
    oneFailing 1 = Except.ok 1
    ∧ (runBatch oneFailing [0, 1]).1 = []
    ∧ (runBatch oneFailing [0, 1]).2 = some 7 :=
  ⟨rfl, rfl, rfl⟩

/-- C6 as amended: an error raised while calibrating one glacier is not
caught; the glaciers processed before the failure keep their persisted
results, while the failing glacier and every subsequent glacier of the
batch produce no result, and the error propagates out of the worker. -/
theorem C6_error_aborts_batch {G R E : Type} (f : G → Except E R)
    (gs1 : List G) (g : G) (gs2 : List G) (e : E)
    (h1 : ∀ x ∈ gs1, ∃ r, f x = Except.ok r) (h2 : f g = Except.error e) :
    ((runBatch f (gs1 ++ g :: gs2)).1.map Prod.fst = gs1)
    ∧ (runBatch f (gs1 ++ g :: gs2)).2 = some e := by
  induction gs1 with
  | nil => simp [runBatch, h2]
  | cons a as ih =>
    obtain ⟨r, hr⟩ := h1 a (by simp)
    have ih2 := ih (fun x hx => h1 x (by simp [hx]))
    simp only [List.cons_append, runBatch, hr]
    simp [ih2.1, ih2.2]

/-- Witness for C6 at a concrete batch: glacier 5 succeeds, glacier 0 then
fails, glacier 1 is never processed. -/
theorem C6_error_aborts_batch_witness :
    ((runBatch oneFailing ([5] ++ 0 :: [1])).1.map Prod.fst = [5])
    ∧ (runBatch oneFailing ([5] ++ 0 :: [1])).2 = some 7 :=
  C6_error_aborts_batch oneFailing [5] 0 [1] 7
    (by intro x hx; simp at hx; subst hx; exact ⟨5, rfl⟩) rfl

/-- Counterexample to C7: for the uniform family with lower bound 1 above
upper bound 0 (and likewise inverted temperature-bias and degenerate
degree-day bounds), construction succeeds rather than failing; for the
bounded-normal family with all three σ = -1 ≤ 0, construction succeeds as
well.  No `ConfigurationError` exists anywhere in the code. -/
theorem C7_counterexample :
    (assignPriors "uniform" 0 1 1 0 0 4 10 (-10) 0 1 5 5).isOk = true
    ∧ (assignPriors "truncnormal" 0 (-1) (-2) 2 0 (-1) (-10) 10 0 (-1) (-1) 1).isOk = true := by
  constructor <;> rfl

/-- C7 as amended: the prior construction performs no validation of the
PriorSpec.  For the bounded-normal family it succeeds for every σ ≠ 0
(including σ < 0 and lo ≥ hi), and for σ = 0 it aborts with a Python
`ZeroDivisionError` from standardizing the bounds — not a
`ConfigurationError`; for the uniform family it always succeeds, including
when lo ≥ hi.  Construction is pure (no side effects). -/
theorem C7_no_validation
    (precfactor_mu precfactor_sigma precfactor_boundlow precfactor_boundhigh
     tempchange_mu tempchange_sigma tempchange_boundlow tempchange_boundhigh
     ddfsnow_mu ddfsnow_sigma ddfsnow_boundlow ddfsnow_boundhigh : ℚ) :
    (precfactor_sigma ≠ 0 → tempchange_sigma ≠ 0 → ddfsnow_sigma ≠ 0 →
      assignPriors "truncnormal" precfactor_mu precfactor_sigma precfactor_boundlow
          precfactor_boundhigh tempchange_mu tempchange_sigma tempchange_boundlow
          tempchange_boundhigh ddfsnow_mu ddfsnow_sigma ddfsnow_boundlow ddfsnow_boundhigh
        = Except.ok
            (PriorDist.truncatedNormal precfactor_mu (1 / precfactor_sigma ^ 2)
              ((precfactor_boundlow - precfactor_mu) / precfactor_sigma)
              ((precfactor_boundhigh - precfactor_mu) / precfactor_sigma),
             PriorDist.truncatedNormal tempchange_mu (1 / tempchange_sigma ^ 2)
              ((tempchange_boundlow - tempchange_mu) / tempchange_sigma)
              ((tempchange_boundhigh - tempchange_mu) / tempchange_sigma),
             PriorDist.truncatedNormal ddfsnow_mu (1 / ddfsnow_sigma ^ 2)
              ((ddfsnow_boundlow - ddfsnow_mu) / ddfsnow_sigma)
              ((ddfsnow_boundhigh - ddfsnow_mu) / ddfsnow_sigma)))
    ∧ (assignPriors "uniform" precfactor_mu precfactor_sigma precfactor_boundlow
          precfactor_boundhigh tempchange_mu tempchange_sigma tempchange_boundlow
          tempchange_boundhigh ddfsnow_mu ddfsnow_sigma ddfsnow_boundlow ddfsnow_boundhigh
        = Except.ok
            (PriorDist.uniformDist precfactor_boundlow precfactor_boundhigh,
             PriorDist.uniformDist tempchange_boundlow tempchange_boundhigh,
             PriorDist.uniformDist ddfsnow_boundlow ddfsnow_boundhigh))
    ∧ (precfactor_sigma = 0 →
      assignPriors "truncnormal" precfactor_mu precfactor_sigma precfactor_boundlow
          precfactor_boundhigh tempchange_mu tempchange_sigma tempchange_boundlow
          tempchange_boundhigh ddfsnow_mu ddfsnow_sigma ddfsnow_boundlow ddfsnow_boundhigh
        = Except.error PyError.zeroDivision) := by
  refine ⟨?_, ?_, ?_⟩
  · intro h1 h2 h3
    simp [assignPriors, pyDiv, h1, h2, h3, pow_ne_zero 2 h1, pow_ne_zero 2 h2,
      pow_ne_zero 2 h3, Bind.bind, Except.bind, Pure.pure, Except.pure]
  · rfl
  · intro h
    simp [assignPriors, pyDiv, h, Bind.bind, Except.bind]

/-- C9: the processed ensemble dataframe has the zero-based run index
0..K-1 as its ordered row identity with the index named `runs` and the
column axis named `variables`, and every member carries the five fixed
auxiliary parameters copied unchanged from the static configuration. -/
theorem C9_processed_df (cfg : StaticConfig) (df : List SampleRow) :
    (process_df cfg df).indexName = "runs"
    ∧ (process_df cfg df).columnsName = "variables"
    ∧ (process_df cfg df).rows.map Prod.fst = List.range df.length
    ∧ (process_df cfg df).rows.length = df.length
    ∧ ∀ row ∈ (process_df cfg df).rows,
        row.2.lrgcm = cfg.lrgcm ∧ row.2.lrglac = cfg.lrglac
        ∧ row.2.precgrad = cfg.precgrad ∧ row.2.ddfice = cfg.ddfice
        ∧ row.2.tempsnow = cfg.tempsnow := by
  refine ⟨rfl, rfl, by simp [process_df], by simp [process_df], ?_⟩
  intro row hrow
  have h2 : row.2 ∈ (df.map (fun r =>
      ({ tempchange := r.tempchange, precfactor := r.precfactor, ddfsnow := r.ddfsnow,
         massbal := r.massbal, lrgcm := cfg.lrgcm, lrglac := cfg.lrglac,
         precgrad := cfg.precgrad, ddfice := cfg.ddfice,
         tempsnow := cfg.tempsnow } : OutputRow))) := by
    have he := List.enum_map_snd (df.map (fun r =>
      ({ tempchange := r.tempchange, precfactor := r.precfactor, ddfsnow := r.ddfsnow,
         massbal := r.massbal, lrgcm := cfg.lrgcm, lrglac := cfg.lrglac,
         precgrad := cfg.precgrad, ddfice := cfg.ddfice,
         tempsnow := cfg.tempsnow } : OutputRow)))
    rw [← he]
    exact List.mem_map_of_mem Prod.snd hrow
  obtain ⟨r, _, hr⟩ := List.mem_map.mp h2
  rw [← hr]
  exact ⟨rfl, rfl, rfl, rfl, rfl⟩

/-- C10: neither the precipitation transformation nor a forward-model
evaluation mutates its inputs — `prec_transformation` leaves the caller's
array unchanged and returns a fresh transformed array, and the `massbal`
deterministic substitutes the candidate values and applies the
precipitation transform only on a copy, leaving the base `modelparameters`
identical before and after every evaluation. -/
theorem C10_no_mutation (xs : List ℚ) (mp : ModelParams)
    (pf dd tc : Option ℚ) (runmassbalance : ModelParams → List ℚ)
    (t1_idx t2_idx : ℕ) (t1 t2 : ℚ) :
    (prec_transformation xs).2 = xs
    ∧ (massbal_run mp pf dd tc runmassbalance t1_idx t2_idx t1 t2).2 = mp
    ∧ (∀ p d t : ℚ, massbal_params mp (some p) (some d) (some t) =
        { mp with precfactor := prec_transform p, ddfsnow := d, tempchange := t }) := by
  refine ⟨rfl, rfl, ?_⟩
  intro p d t
  by_cases h : 0 ≤ p <;> simp [massbal_params, prec_transform, h]

end PyGEM
